import Mathlib

/-!
Verification of the `blkzone` utility (sys-utils/blkzone.c).

The embedding models the two command handlers, `blkzone_report` and
`blkzone_reset`, as pure functions.  Machine integers (`uint64_t`,
`unsigned long`) are modelled as `Nat` with explicit wraparound `% 2 ^ 64`
wherever the C arithmetic can overflow.  The kernel is modelled as a
function parameter: for `report` it maps an ioctl request
`(sector, nr_zones)` to an optional reply (none = ioctl failure); for
`reset` a predicate says whether the BLKRESETZONE ioctl succeeds.
Each handler returns, besides its result, a trace of the externally
visible actions: the ioctl request it issued (if any) and, for `reset`,
whether the device was opened.
-/

namespace Blkzone

/-- Wraparound modulus of the C `uint64_t` arithmetic. -/
def U64 : Nat := 2 ^ 64

/-- C `uint64_t` subtraction `a - b` (wraps modulo `2 ^ 64`). -/
def sub64 (a b : Nat) : Nat := (a + U64 - b % U64) % U64

/-- `#define DEF_REPORT_LEN (1 << 12)` — defined in the source but never used. -/
def DEF_REPORT_LEN : Nat := 2 ^ 12

/-- `#define MAX_REPORT_LEN (1 << 16)`. -/
def MAX_REPORT_LEN : Nat := 2 ^ 16

/-- The `type_text[]` table: zone-type names, indexed by the raw type code. -/
def type_text : List String :=
  ["RESERVED", "CONVENTIONAL", "SEQ_WRITE_REQUIRED", "SEQ_WRITE_PREFERRED"]

/-- The `condition_str[]` table: two-character zone-condition mnemonics.
It has 15 entries (indices 0 through 14). -/
def condition_str : List String :=
  ["cv", "e0", "Oi", "Oe", "Cl",
   "x5", "x6", "x7", "x8", "x9", "xA", "xB",
   "ro", "fu", "OL"]

/-- The index used for the condition-mnemonic lookup:
`cond & ARRAY_SIZE(condition_str)` in the source, i.e. a bitwise AND with
the table length (15), not with the last valid index. -/
def condIndex (cond : Nat) : Nat := cond &&& condition_str.length

/-- The fields of `struct blkzone_control` that the handlers read:
device geometry from `init_device` and the user-supplied range. -/
structure BlkzoneControl where
  total_sectors : Nat
  secsize : Int
  offset : Nat
  length : Nat
  verbose : Bool
deriving DecidableEq

/-- One `struct blk_zone` descriptor as returned by BLKREPORTZONE. -/
structure BlkZone where
  start : Nat
  len : Nat
  wp : Nat
  type : Nat
  cond : Nat
  reset : Nat
  non_seq : Nat
deriving DecidableEq

/-- The output part of `struct blk_zone_report` after the ioctl: the zone
count the kernel wrote and the descriptors it filled in. -/
structure ZoneReply where
  nr_zones : Nat
  zones : List BlkZone
deriving DecidableEq

/-- The values printed for one zone line by `blkzone_report`'s printf:
a lookup result is `none` when the C code would read past the end of the
corresponding table (an out-of-bounds access has no defined value). -/
structure ZoneLine where
  start : Nat
  len : Nat
  wptr : Nat
  reset : Nat
  non_seq : Nat
  cond : Nat
  condName : Option String
  type : Nat
  typeName : Option String
deriving DecidableEq

/-- Formatting of one descriptor: the printf arguments of the per-zone
line.  `wptr` is the uint64 difference `wp - start`; `condName` is
`condition_str[cond & ARRAY_SIZE(condition_str)]`; `typeName` is
`type_text[type]` with no mask or bounds check. -/
def format_zone (z : BlkZone) : ZoneLine :=
  { start := z.start
    len := z.len
    wptr := sub64 z.wp z.start
    reset := z.reset
    non_seq := z.non_seq
    cond := z.cond
    condName := condition_str.get? (condIndex z.cond)
    type := z.type
    typeName := type_text.get? z.type }

/-- The report loop: iterates the descriptors in order for at most
`nr_zones` iterations, breaking (without printing) at the first
descriptor whose `len` is zero. -/
def report_loop : List BlkZone → Nat → List ZoneLine
  | _, 0 => []
  | [], _ + 1 => []
  | z :: rest, k + 1 =>
    if z.len = 0 then []
    else format_zone z :: report_loop rest k

/-- Normalization of `ctl->length` in `blkzone_report`: raise to 1 when
below 1, then clamp to `MAX_REPORT_LEN` (recording one warning). -/
def clamp_warn (l : Nat) : Nat × Nat :=
  if MAX_REPORT_LEN < (if l < 1 then 1 else l)
  then (MAX_REPORT_LEN, 1)
  else ((if l < 1 then 1 else l), 0)

/-- Fatal error exits of `blkzone_report`. -/
inductive ReportError
  | OffsetOutOfRange
  | ReportIOError
deriving DecidableEq

/-- What `blkzone_report` prints on success: the number of clamp warnings
emitted, the summary count ("Zones returned: %u") and the per-zone lines. -/
structure ReportResult where
  warned : Nat
  nrReturned : Nat
  lines : List ZoneLine
deriving DecidableEq

/-- Result and trace of one run of `blkzone_report`: `request` is the
`(sector, nr_zones)` handed to the BLKREPORTZONE ioctl (none if never
issued), `alloc` the number of descriptor slots allocated by xmalloc. -/
structure ReportOutcome where
  result : Except ReportError ReportResult
  request : Option (Nat × Nat)
  alloc : Option Nat

/-- The `blkzone_report` handler.  `dev` models the BLKREPORTZONE ioctl:
given the start sector and requested zone count it yields the kernel's
reply, or `none` when the ioctl fails. -/
def blkzone_report (dev : Nat → Nat → Option ZoneReply) (ctl : BlkzoneControl) :
    ReportOutcome :=
  if ctl.total_sectors < ctl.offset then
    { result := .error .OffsetOutOfRange, request := none, alloc := none }
  else
    match dev ctl.offset (clamp_warn ctl.length).1 with
    | none =>
      { result := .error .ReportIOError
        request := some (ctl.offset, (clamp_warn ctl.length).1)
        alloc := some (clamp_warn ctl.length).1 }
    | some zi =>
      { result := .ok
          { warned := (clamp_warn ctl.length).2
            nrReturned := zi.nr_zones
            lines := report_loop zi.zones zi.nr_zones }
        request := some (ctl.offset, (clamp_warn ctl.length).1)
        alloc := some (clamp_warn ctl.length).1 }

/-- Fatal error exits of `blkzone_reset`. -/
inductive ResetError
  | UnknownZoneSize
  | Misaligned
  | OffsetOutOfRange
  | ResetIOError
deriving DecidableEq

/-- Result and trace of one run of `blkzone_reset`: whether the device
was opened, and the `(sector, nr_sectors)` range handed to the
BLKRESETZONE ioctl (none if the ioctl was never issued). -/
structure ResetOutcome where
  result : Except ResetError Unit
  opened : Bool
  issued : Option (Nat × Nat)

/-- The sector count passed to BLKRESETZONE: `zlen = length * zonesize`
(uint64), clamped to `total_sectors - length` (uint64, note: the zone
count, not the sector length, is subtracted) when `offset + zlen`
exceeds `total_sectors`. -/
def resetLen (chunk : Nat) (ctl : BlkzoneControl) : Nat :=
  if ctl.total_sectors < (ctl.offset + ctl.length * chunk % U64) % U64
  then (ctl.total_sectors + U64 - ctl.length % U64) % U64
  else ctl.length * chunk % U64

/-- The `blkzone_reset` handler.  `chunk` is the result of
`blkdev_chunk_sectors` (0 when the zone size cannot be determined) —
this sysfs query happens before `init_device` opens the device.
`devOK` models whether the BLKRESETZONE ioctl succeeds on the issued
range.  The alignment test is the source's `offset & (zonesize - 1)`. -/
def blkzone_reset (chunk : Nat) (devOK : Nat → Nat → Bool) (ctl : BlkzoneControl) :
    ResetOutcome :=
  if chunk = 0 then
    { result := .error .UnknownZoneSize, opened := false, issued := none }
  else if ctl.offset &&& (chunk - 1) ≠ 0 then
    { result := .error .Misaligned, opened := true, issued := none }
  else if ctl.total_sectors < ctl.offset then
    { result := .error .OffsetOutOfRange, opened := true, issued := none }
  else if devOK ctl.offset (resetLen chunk ctl) then
    { result := .ok (), opened := true, issued := some (ctl.offset, resetLen chunk ctl) }
  else
    { result := .error .ResetIOError, opened := true, issued := some (ctl.offset, resetLen chunk ctl) }

/-! Concrete fixtures used by the witness theorems. -/

/-- A BLKRESETZONE model that accepts every range. -/
def fTrue : Nat → Nat → Bool := fun _ _ => true

/-- The empty kernel reply: zero zones. -/
def replyNil : ZoneReply := { nr_zones := 0, zones := [] }

/-- A BLKREPORTZONE model that always succeeds with an empty reply. -/
def devEmpty : Nat → Nat → Option ZoneReply := fun _ _ => some replyNil

/-- A sample descriptor with nonzero length. -/
def zoneA : BlkZone :=
  { start := 0, len := 8, wp := 4, type := 2, cond := 1, reset := 0, non_seq := 0 }

/-- A sample descriptor with zero length (end-of-data marker). -/
def zoneZero : BlkZone := { zoneA with start := 8, len := 0 }

/-- A sample descriptor after the zero-length one. -/
def zoneB : BlkZone := { zoneA with start := 16 }

/-- A reply of three descriptors whose second has zero length. -/
def replyABZ : ZoneReply := { nr_zones := 3, zones := [zoneA, zoneZero, zoneB] }

/-- A BLKREPORTZONE model returning `replyABZ` for every request. -/
def devABZ : Nat → Nat → Option ZoneReply := fun _ _ => some replyABZ

/-- Control fixture: 1000-sector device, offset 0, length 0. -/
def ctlZero : BlkzoneControl :=
  { total_sectors := 1000, secsize := 512, offset := 0, length := 0, verbose := false }

/-- Control fixture: length set to the (unused) source default. -/
def ctlDef : BlkzoneControl := { ctlZero with length := DEF_REPORT_LEN }

/-- Control fixture for the report-lines witness. -/
def ctlSix : BlkzoneControl := { ctlZero with length := 5 }

/-- Control fixture for the clamp witnesses: length above the maximum. -/
def ctlBig : BlkzoneControl := { ctlZero with length := 70000 }

/-- Control fixture with length 100 (below the maximum). -/
def ctlSmall : BlkzoneControl := { ctlZero with length := 100 }

/-- Reset fixture: 3-sector device, zone size 2, offset 2, one zone. -/
def ctlC2 : BlkzoneControl :=
  { total_sectors := 3, secsize := 512, offset := 2, length := 1, verbose := false }

/-- Reset fixture: 100-sector device, offset 4, three zones. -/
def ctlC2w : BlkzoneControl :=
  { total_sectors := 100, secsize := 512, offset := 4, length := 3, verbose := false }

/-- Reset fixture: 10-sector device, offset 4 (not a multiple of zone size 3). -/
def ctlC5 : BlkzoneControl :=
  { total_sectors := 10, secsize := 512, offset := 4, length := 1, verbose := false }

/-- Reset fixture: offset 6, misaligned for zone size 4. -/
def ctlC5w : BlkzoneControl :=
  { total_sectors := 100, secsize := 512, offset := 6, length := 1, verbose := false }

/-- Reset fixture: well-formed arguments (used with zone size 0). -/
def ctlC9a : BlkzoneControl :=
  { total_sectors := 10, secsize := 512, offset := 0, length := 1, verbose := false }

/-- Reset fixture: offset 6, misaligned for zone size 4. -/
def ctlC9b : BlkzoneControl := { ctlC9a with offset := 6 }

/-- Reset fixture: offset 12 aligned to zone size 4 but beyond the 10-sector device. -/
def ctlC9c : BlkzoneControl := { ctlC9a with offset := 12 }

/-! Helper lemmas. -/

theorem report_loop_eq (zones : List BlkZone) :
    ∀ k, zones.length ≤ k →
      report_loop zones k = (zones.takeWhile fun z => z.len != 0).map format_zone := by
  induction zones with
  | nil =>
    intro k _
    cases k <;> simp [report_loop]
  | cons z rest ih =>
    intro k hk
    cases k with
    | zero => simp at hk
    | succ k =>
      by_cases hz : z.len = 0
      · simp [report_loop, hz, List.takeWhile_cons]
      · have hk' : rest.length ≤ k := by simp at hk; omega
        simp [report_loop, hz, List.takeWhile_cons, ih k hk']

theorem length_takeWhile_le {α : Type} (p : α → Bool) (l : List α) :
    (l.takeWhile p).length ≤ l.length := by
  induction l with
  | nil => simp
  | cons z rest ih =>
    rw [List.takeWhile_cons]
    by_cases h : p z <;> simp [h] <;> omega

theorem clamp_warn_bounds (l : Nat) :
    1 ≤ (clamp_warn l).1 ∧ (clamp_warn l).1 ≤ MAX_REPORT_LEN := by
  unfold clamp_warn MAX_REPORT_LEN
  by_cases h1 : l < 1 <;> simp [h1] <;> split <;> simp <;> omega

theorem clamp_warn_of_big (l : Nat) (h : MAX_REPORT_LEN < l) :
    clamp_warn l = (MAX_REPORT_LEN, 1) := by
  unfold clamp_warn MAX_REPORT_LEN at *
  have h1 : ¬ l < 1 := by omega
  simp [h1]
  omega

theorem clamp_warn_of_small (l : Nat) (h : l ≤ MAX_REPORT_LEN) :
    (clamp_warn l).1 = (if l < 1 then 1 else l) ∧ (clamp_warn l).2 = 0 := by
  unfold clamp_warn MAX_REPORT_LEN at *
  rw [if_neg (by by_cases h1 : l < 1 <;> simp [h1] <;> omega)]
  exact ⟨rfl, rfl⟩

theorem reset_issued_of_valid (chunk : Nat) (devOK : Nat → Nat → Bool)
    (ctl : BlkzoneControl) (h0 : chunk ≠ 0) (h1 : ctl.offset &&& (chunk - 1) = 0)
    (h2 : ctl.offset ≤ ctl.total_sectors) :
    (blkzone_reset chunk devOK ctl).issued = some (ctl.offset, resetLen chunk ctl) := by
  unfold blkzone_reset
  rw [if_neg h0, if_neg (by simp [h1]), if_neg (by omega)]
  by_cases h : devOK ctl.offset (resetLen chunk ctl) <;> simp [h]

/-! Claim theorems. -/

/-- Claim C1: the claim that the condition-mnemonic index always falls
within the bounds of `condition_str` fails on the code.  The table has 15
entries (indices 0 through 14) but the index is `cond & 15` (a bitwise AND
with the table length, not the last valid index), so condition code 15
yields index 15 and the lookup reads one entry past the end of the table;
the formatted line's mnemonic is the value of that out-of-bounds access. -/
theorem condIndex_15_out_of_bounds :
    condIndex 15 = condition_str.length ∧
    condition_str.length = 15 ∧
    condition_str.get? (condIndex 15) = none ∧
    (format_zone { start := 0, len := 8, wp := 0, type := 1, cond := 15,
                   reset := 0, non_seq := 0 }).condName = none := by
  refine ⟨rfl, rfl, rfl, rfl⟩

/-- Claim C8: the zone-type name printed for a descriptor comes from
indexing `type_text` directly with the raw device-reported type code,
with no mask or bounds check; since the table has 4 entries the lookup is
in bounds exactly when the type code is at most 3. -/
theorem type_lookup_in_bounds_iff (z : BlkZone) :
    (format_zone z).typeName = type_text.get? z.type ∧
    type_text.length = 4 ∧
    ((type_text.get? z.type).isSome ↔ z.type ≤ 3) := by
  refine ⟨rfl, rfl, ?_, ?_⟩
  · intro h
    by_contra hc
    rw [List.get?_eq_none.mpr (by simp [type_text]; omega)] at h
    simp at h
  · intro h
    rw [List.get?_eq_get (by simp [type_text]; omega)]
    rfl

/-- Claim C10: whenever `blkzone_report` reaches the BLKREPORTZONE ioctl,
the zone count it requests is at least 1 and at most `MAX_REPORT_LEN`
(65536), and the descriptor buffer is allocated for exactly that count. -/
theorem report_request_bounds (dev : Nat → Nat → Option ZoneReply)
    (ctl : BlkzoneControl) (s n : Nat)
    (h : (blkzone_report dev ctl).request = some (s, n)) :
    1 ≤ n ∧ n ≤ MAX_REPORT_LEN ∧ (blkzone_report dev ctl).alloc = some n := by
  unfold blkzone_report at *
  by_cases hofs : ctl.total_sectors < ctl.offset
  · simp [hofs] at h
  · rw [if_neg hofs] at h ⊢
    revert h
    cases hdev : dev ctl.offset (clamp_warn ctl.length).1 <;>
      intro h <;>
      simp at h ⊢ <;>
      (obtain ⟨h1, h2⟩ := h) <;>
      subst h2 <;>
      exact ⟨(clamp_warn_bounds ctl.length).1, (clamp_warn_bounds ctl.length).2, rfl⟩

/-- Witness for C10: with length 0 the request is for 1 zone and one
descriptor slot is allocated. -/
theorem report_request_bounds_witness :
    (blkzone_report devEmpty ctlZero).request = some (0, 1) ∧
    (1 ≤ 1 ∧ 1 ≤ MAX_REPORT_LEN ∧ (blkzone_report devEmpty ctlZero).alloc = some 1) :=
  ⟨rfl, report_request_bounds devEmpty ctlZero 0 1 rfl⟩

/-- Claim C4: the claim that report with length 0 behaves like the default
of 4096 zone entries fails on the code.  `DEF_REPORT_LEN` (4096) is
defined in the source but never used: a zero length is normalized to 1,
so the device is asked for a single zone descriptor, not 4096. -/
theorem report_length_zero_requests_one :
    (blkzone_report devEmpty ctlZero).request = some (0, 1) ∧
    (blkzone_report devEmpty ctlDef).request = some (0, DEF_REPORT_LEN) ∧
    DEF_REPORT_LEN = 4096 ∧ (1 : Nat) ≠ DEF_REPORT_LEN := by
  refine ⟨rfl, rfl, rfl, by decide⟩

/-- Claim C6: when the ioctl succeeds and the kernel's reply is within
the requested count with as many descriptors as it claims, the report
succeeds (the early stop is not an error) and the printed lines are
exactly the formatted prefix of the descriptors, in device order, up to
but excluding the first zero-length descriptor; hence at most as many
lines as zones returned, itself at most the requested count. -/
theorem report_lines_spec (dev : Nat → Nat → Option ZoneReply)
    (ctl : BlkzoneControl) (zi : ZoneReply)
    (hoff : ctl.offset ≤ ctl.total_sectors)
    (hdev : dev ctl.offset (clamp_warn ctl.length).1 = some zi)
    (hwrote : zi.zones.length = zi.nr_zones)
    (hle : zi.nr_zones ≤ (clamp_warn ctl.length).1) :
    (blkzone_report dev ctl).result = .ok
      { warned := (clamp_warn ctl.length).2
        nrReturned := zi.nr_zones
        lines := (zi.zones.takeWhile fun z => z.len != 0).map format_zone } ∧
    ((zi.zones.takeWhile fun z => z.len != 0).map format_zone).length ≤ zi.nr_zones ∧
    zi.nr_zones ≤ (clamp_warn ctl.length).1 := by
  refine ⟨?_, ?_, hle⟩
  · unfold blkzone_report
    rw [if_neg (by omega), hdev]
    simp [report_loop_eq zi.zones zi.nr_zones (Nat.le_of_eq hwrote)]
  · rw [List.length_map]
    calc (zi.zones.takeWhile fun z => z.len != 0).length
        ≤ zi.zones.length := length_takeWhile_le _ _
      _ = zi.nr_zones := hwrote

/-- Witness for C6: on a reply of three descriptors whose second has zero
length, exactly the first descriptor's line is printed and the run
succeeds. -/
theorem report_lines_spec_witness :
    devABZ ctlSix.offset (clamp_warn ctlSix.length).1 = some replyABZ ∧
    (blkzone_report devABZ ctlSix).result = .ok
      { warned := (clamp_warn ctlSix.length).2
        nrReturned := replyABZ.nr_zones
        lines := (replyABZ.zones.takeWhile fun z => z.len != 0).map format_zone } :=
  ⟨rfl, (report_lines_spec devABZ ctlSix replyABZ (by decide) rfl (by decide) (by decide)).1⟩

/-- Claim C7: a report request above `MAX_REPORT_LEN` (65536) behaves
exactly like a request of `MAX_REPORT_LEN` — same ioctl request, same
buffer, same result — except that exactly one clamp warning is emitted;
a request of at most `MAX_REPORT_LEN` emits no clamp warning, and no
error path of the handler is taken because of the length (given a valid
offset and a successful ioctl the run succeeds). -/
theorem report_clamp_spec (dev : Nat → Nat → Option ZoneReply) (ctl : BlkzoneControl) :
    (MAX_REPORT_LEN < ctl.length →
      blkzone_report dev ctl =
        { result := ((blkzone_report dev { ctl with length := MAX_REPORT_LEN }).result).map
            (fun r => { r with warned := 1 })
          request := (blkzone_report dev { ctl with length := MAX_REPORT_LEN }).request
          alloc := (blkzone_report dev { ctl with length := MAX_REPORT_LEN }).alloc } ∧
      (∀ r, (blkzone_report dev ctl).result = .ok r → r.warned = 1)) ∧
    (ctl.length ≤ MAX_REPORT_LEN →
      (∀ r, (blkzone_report dev ctl).result = .ok r → r.warned = 0) ∧
      (ctl.offset ≤ ctl.total_sectors →
        ∀ zi, dev ctl.offset (clamp_warn ctl.length).1 = some zi →
          (blkzone_report dev ctl).result =
            .ok { warned := 0
                  nrReturned := zi.nr_zones
                  lines := report_loop zi.zones zi.nr_zones })) := by
  have hmax : clamp_warn MAX_REPORT_LEN = (MAX_REPORT_LEN, 0) := by decide
  constructor
  · intro h
    have hbig : clamp_warn ctl.length = (MAX_REPORT_LEN, 1) := clamp_warn_of_big _ h
    constructor
    · unfold blkzone_report
      simp only [hbig, hmax]
      by_cases hofs : ctl.total_sectors < ctl.offset
      · simp [hofs, Except.map]
      · simp only [hofs, if_false]
        cases dev ctl.offset (MAX_REPORT_LEN, 1).1 <;> simp [Except.map]
    · intro r hr
      unfold blkzone_report at hr
      by_cases hofs : ctl.total_sectors < ctl.offset
      · simp [hofs] at hr
      · rw [if_neg hofs] at hr
        revert hr
        cases dev ctl.offset (clamp_warn ctl.length).1 <;> intro hr <;> simp at hr
        rw [← hr, hbig]
  · intro h
    have hsmall := clamp_warn_of_small _ h
    constructor
    · intro r hr
      unfold blkzone_report at hr
      by_cases hofs : ctl.total_sectors < ctl.offset
      · simp [hofs] at hr
      · rw [if_neg hofs] at hr
        revert hr
        cases dev ctl.offset (clamp_warn ctl.length).1 <;> intro hr <;> simp at hr
        rw [← hr, hsmall.2]
    · intro hofs zi hdev
      unfold blkzone_report
      rw [if_neg (by omega), hdev, hsmall.2]

/-- Witness for C7: length 70000 is clamped to 65536 and the run differs
from a length-65536 run only in emitting one warning; length 100 runs
without a warning and succeeds. -/
theorem report_clamp_spec_witness :
    MAX_REPORT_LEN < ctlBig.length ∧
    blkzone_report devEmpty ctlBig =
      { result := ((blkzone_report devEmpty { ctlBig with length := MAX_REPORT_LEN }).result).map
          (fun r => { r with warned := 1 })
        request := (blkzone_report devEmpty { ctlBig with length := MAX_REPORT_LEN }).request
        alloc := (blkzone_report devEmpty { ctlBig with length := MAX_REPORT_LEN }).alloc } ∧
    (blkzone_report devEmpty ctlSmall).result =
      .ok { warned := 0
            nrReturned := replyNil.nr_zones
            lines := report_loop replyNil.zones replyNil.nr_zones } :=
  ⟨by decide,
   ((report_clamp_spec devEmpty ctlBig).1 (by decide)).1,
   ((report_clamp_spec devEmpty ctlSmall).2 (by decide)).2 (by decide) replyNil rfl⟩

/-- Claim C2 counterexample: the Reset Range invariant fails on the code.
On a 3-sector device with zone size 2, offset 2, one zone, validation
passes (the offset is aligned and within the device), the requested range
`2 + 1*2 = 4 > 3` triggers the clamp, and the clamp sets the sector count
to `total_sectors - length = 3 - 1 = 2`; the issued range (2, 2) ends at
sector 4, beyond the device's 3 sectors. -/
theorem reset_range_invariant_cex :
    (blkzone_reset 2 fTrue ctlC2).result = .ok () ∧
    (blkzone_reset 2 fTrue ctlC2).issued = some (2, 2) ∧
    ¬ (2 + 2 ≤ 3) :=
  ⟨rfl, rfl, by decide⟩

/-- Claim C2 (amended): for every reset invocation that passes validation
(and whose `offset + length*zonesize` comparison does not wrap modulo
`2 ^ 64`), the issued start is the requested offset; when the requested
range fits in the device the issued count is the requested
`length * zonesize` and the range end stays within the total sector
count; when the requested range exceeds the device the count is instead
set to `total_sectors - length` (the zone count is subtracted), which
does not in general keep the range end within the device. -/
theorem reset_range_amended (chunk : Nat) (devOK : Nat → Nat → Bool)
    (ctl : BlkzoneControl) (h0 : chunk ≠ 0)
    (h1 : ctl.offset &&& (chunk - 1) = 0)
    (h2 : ctl.offset ≤ ctl.total_sectors)
    (hlen : ctl.length < U64)
    (hnw : ctl.offset + ctl.length * chunk % U64 < U64) :
    (blkzone_reset chunk devOK ctl).issued = some (ctl.offset, resetLen chunk ctl) ∧
    (ctl.offset + ctl.length * chunk % U64 ≤ ctl.total_sectors →
      resetLen chunk ctl = ctl.length * chunk % U64 ∧
      ctl.offset + resetLen chunk ctl ≤ ctl.total_sectors) ∧
    (ctl.total_sectors < ctl.offset + ctl.length * chunk % U64 →
      resetLen chunk ctl = (ctl.total_sectors + U64 - ctl.length) % U64) := by
  have hmod : (ctl.offset + ctl.length * chunk % U64) % U64
      = ctl.offset + ctl.length * chunk % U64 := Nat.mod_eq_of_lt hnw
  have hlmod : ctl.length % U64 = ctl.length := Nat.mod_eq_of_lt hlen
  refine ⟨reset_issued_of_valid chunk devOK ctl h0 h1 h2, ?_, ?_⟩
  · intro hfit
    unfold resetLen
    rw [hmod, if_neg (by omega)]
    exact ⟨rfl, hfit⟩
  · intro hover
    unfold resetLen
    rw [hmod, if_pos (by omega), hlmod]

/-- Witness for C2 (amended): zone size 2, offset 4, three zones on a
100-sector device: the issued range is the unclamped (4, 6). -/
theorem reset_range_amended_witness :
    (2 : Nat) ≠ 0 ∧ ctlC2w.offset &&& (2 - 1) = 0 ∧
    ctlC2w.offset + ctlC2w.length * 2 % U64 ≤ ctlC2w.total_sectors ∧
    (blkzone_reset 2 fTrue ctlC2w).issued = some (ctlC2w.offset, resetLen 2 ctlC2w) ∧
    resetLen 2 ctlC2w = ctlC2w.length * 2 % U64 ∧
    ctlC2w.offset + resetLen 2 ctlC2w ≤ ctlC2w.total_sectors :=
  ⟨by decide, by decide, by decide,
   (reset_range_amended 2 fTrue ctlC2w (by decide) (by decide) (by decide)
      (by decide) (by decide)).1,
   (reset_range_amended 2 fTrue ctlC2w (by decide) (by decide) (by decide)
      (by decide) (by decide)).2.1 (by decide)⟩

/-- Claim C3: when the clamp fires, the sector count issued to
BLKRESETZONE is `total_sectors - length` — the requested zone count is
subtracted, not the computed sector length and not the offset. -/
theorem reset_clamp_subtracts_zone_count (chunk : Nat) (devOK : Nat → Nat → Bool)
    (ctl : BlkzoneControl) (h0 : chunk ≠ 0)
    (h1 : ctl.offset &&& (chunk - 1) = 0)
    (h2 : ctl.offset ≤ ctl.total_sectors)
    (htot : ctl.total_sectors < U64)
    (hlen : ctl.length ≤ ctl.total_sectors)
    (hover : ctl.total_sectors < (ctl.offset + ctl.length * chunk % U64) % U64) :
    (blkzone_reset chunk devOK ctl).issued =
      some (ctl.offset, ctl.total_sectors - ctl.length) := by
  rw [reset_issued_of_valid chunk devOK ctl h0 h1 h2]
  unfold resetLen
  rw [if_pos hover]
  have h3 : ctl.length % U64 = ctl.length := Nat.mod_eq_of_lt (by unfold U64 at *; omega)
  rw [h3]
  simp only [Option.some.injEq, Prod.mk.injEq, true_and, eq_self_iff_true]
  unfold U64 at *
  omega

/-- Witness for C3: on the 3-sector device with zone size 2, offset 2 and
one zone, the clamp fires and the issued count is `3 - 1 = 2` (which
differs from `total - sector_length = 1` and from `total - offset = 1`). -/
theorem reset_clamp_subtracts_zone_count_witness :
    ctlC2.total_sectors < (ctlC2.offset + ctlC2.length * 2 % U64) % U64 ∧
    (blkzone_reset 2 fTrue ctlC2).issued =
      some (ctlC2.offset, ctlC2.total_sectors - ctlC2.length) ∧
    ctlC2.total_sectors - ctlC2.length ≠ ctlC2.total_sectors - ctlC2.length * 2 % U64 ∧
    ctlC2.total_sectors - ctlC2.length ≠ ctlC2.total_sectors - ctlC2.offset :=
  ⟨by decide,
   reset_clamp_subtracts_zone_count 2 fTrue ctlC2 (by decide) (by decide)
     (by decide) (by decide) (by decide) (by decide),
   by decide, by decide⟩

/-- Claim C5 counterexample: the claim that reset fails if and only if
`offset mod zonesize` is nonzero fails for non-power-of-two zone sizes.
With zone size 3 and offset 4, `4 mod 3 = 1` is nonzero, yet the code's
test `offset AND (zonesize - 1) = 4 AND 2 = 0` passes, no misaligned
error is raised, and the reset is issued over (4, 3). -/
theorem reset_alignment_cex :
    (blkzone_reset 3 fTrue ctlC5).result = .ok () ∧
    (blkzone_reset 3 fTrue ctlC5).issued = some (4, 3) ∧
    4 % 3 ≠ 0 :=
  ⟨rfl, rfl, by decide⟩

/-- Claim C5 (amended): for every determined zone size the reset fails
with the misaligned-offset error if and only if
`offset AND (zonesize - 1)` is nonzero, and on that failure no reset is
issued; when the zone size is a power of two this test coincides with
`offset mod zonesize` being nonzero. -/
theorem reset_alignment_amended (chunk : Nat) (devOK : Nat → Nat → Bool)
    (ctl : BlkzoneControl) (h0 : chunk ≠ 0) :
    ((blkzone_reset chunk devOK ctl).result = .error .Misaligned ↔
      ctl.offset &&& (chunk - 1) ≠ 0) ∧
    (ctl.offset &&& (chunk - 1) ≠ 0 →
      (blkzone_reset chunk devOK ctl).issued = none ∧
      (blkzone_reset chunk devOK ctl).result = .error .Misaligned) ∧
    (∀ k, chunk = 2 ^ k →
      (ctl.offset &&& (chunk - 1) = 0 ↔ ctl.offset % chunk = 0)) := by
  have hmain : ∀ _ : ctl.offset &&& (chunk - 1) ≠ 0,
      (blkzone_reset chunk devOK ctl).issued = none ∧
      (blkzone_reset chunk devOK ctl).result = .error .Misaligned := by
    intro ha
    unfold blkzone_reset
    rw [if_neg h0, if_pos ha]
    exact ⟨rfl, rfl⟩
  refine ⟨⟨?_, fun ha => (hmain ha).2⟩, hmain, ?_⟩
  · intro hr
    by_contra ha
    unfold blkzone_reset at hr
    rw [if_neg h0, if_neg (by simp [ha])] at hr
    by_cases hofs : ctl.total_sectors < ctl.offset
    · rw [if_pos hofs] at hr
      simp at hr
    · rw [if_neg hofs] at hr
      by_cases hd : devOK ctl.offset (resetLen chunk ctl) <;>
        simp [hd] at hr
  · intro k hk
    rw [hk, Nat.and_pow_two_sub_one_eq_mod]

/-- Witness for C5 (amended): zone size 4, offset 6: the AND test is
nonzero, the run fails with the misaligned error, nothing is issued, and
(4 being a power of two) the test agrees with `6 mod 4 ≠ 0`. -/
theorem reset_alignment_amended_witness :
    (4 : Nat) ≠ 0 ∧ ctlC5w.offset &&& (4 - 1) ≠ 0 ∧
    (blkzone_reset 4 fTrue ctlC5w).issued = none ∧
    (blkzone_reset 4 fTrue ctlC5w).result = .error .Misaligned ∧
    (ctlC5w.offset &&& (4 - 1) = 0 ↔ ctlC5w.offset % 4 = 0) :=
  ⟨by decide, by decide,
   ((reset_alignment_amended 4 fTrue ctlC5w (by decide)).2.1 (by decide)).1,
   ((reset_alignment_amended 4 fTrue ctlC5w (by decide)).2.1 (by decide)).2,
   (reset_alignment_amended 4 fTrue ctlC5w (by decide)).2.2 2 rfl⟩

/-- Claim C9: on every validation-failure exit of the reset handler
(zone size undeterminable, misaligned offset, offset beyond the device)
no BLKRESETZONE ioctl is issued, so the device's zone state is untouched;
and the zone-size failure happens before the device is even opened. -/
theorem reset_validation_no_ioctl (chunk : Nat) (devOK : Nat → Nat → Bool)
    (ctl : BlkzoneControl) :
    ((blkzone_reset chunk devOK ctl).result = .error .UnknownZoneSize →
      (blkzone_reset chunk devOK ctl).issued = none ∧
      (blkzone_reset chunk devOK ctl).opened = false) ∧
    ((blkzone_reset chunk devOK ctl).result = .error .Misaligned →
      (blkzone_reset chunk devOK ctl).issued = none) ∧
    ((blkzone_reset chunk devOK ctl).result = .error .OffsetOutOfRange →
      (blkzone_reset chunk devOK ctl).issued = none) := by
  unfold blkzone_reset
  by_cases h0 : chunk = 0
  · simp [h0]
  · rw [if_neg h0]
    by_cases ha : ctl.offset &&& (chunk - 1) ≠ 0
    · simp [ha]
    · rw [if_neg ha]
      by_cases hofs : ctl.total_sectors < ctl.offset
      · simp [hofs]
      · rw [if_neg hofs]
        by_cases hd : devOK ctl.offset (resetLen chunk ctl) <;> simp [hd]

/-- Witness for C9: a zone-size-0 run issues nothing and never opens the
device; a misaligned run and an offset-beyond-device run issue nothing. -/
theorem reset_validation_no_ioctl_witness :
    ((blkzone_reset 0 fTrue ctlC9a).issued = none ∧
     (blkzone_reset 0 fTrue ctlC9a).opened = false) ∧
    (blkzone_reset 4 fTrue ctlC9b).issued = none ∧
    (blkzone_reset 4 fTrue ctlC9c).issued = none :=
  ⟨(reset_validation_no_ioctl 0 fTrue ctlC9a).1 rfl,
   (reset_validation_no_ioctl 4 fTrue ctlC9b).2.1 rfl,
   (reset_validation_no_ioctl 4 fTrue ctlC9c).2.2 rfl⟩

end Blkzone
